import Mathlib

set_option linter.unusedVariables false

/-!
Verification of the multi-platform publishing orchestrator of the ai-chatbot
repository, shallowly embedded from:
  src/services/social_media_service.py
  src/services/ai_service.py
  src/routes/media.py
  src/models/media.py
Python datetimes are modelled as natural numbers counting microseconds from an
arbitrary midnight, so `timedelta(hours=2)` is `+ 2 * us_per_hour`, the `.hour`
attribute is `t % us_per_day / us_per_hour`, and
`replace(hour=11, minute=0, second=0, microsecond=0)` is
`t / us_per_day * us_per_day + 11 * us_per_hour`.  `isoformat()` strings are
modelled by the datetime value itself (the encoding is injective and no claim
inspects its text).  Python dicts with a fixed key set are modelled as
structures with one `Option` field per key the source ever sets or reads.
-/

/-- Metadata bag passed to every adapter: one optional field per key that
src/services/social_media_service.py reads with `metadata.get(...)`. -/
structure Metadata where
  title : Option String := none
  description : Option String := none
  hashtags : Option (List String) := none
  category : Option String := none
  privacy : Option String := none
  ig_user_id : Option String := none
  media_url : Option String := none
  page_id : Option String := none
  disable_duet : Option Bool := none
  disable_comment : Option Bool := none
  disable_stitch : Option Bool := none
  cover_timestamp : Option Nat := none
  auto_add_music : Option Bool := none
  deriving Repr, DecidableEq

/-- Normalized adapter result dict: one optional field per key any adapter or
the dispatcher ever places in its returned dict (social_media_service.py).
`scheduled_time` holds the datetime value standing for its isoformat string. -/
structure PublishResult where
  success : Bool
  platform : Option String := none
  video_id : Option String := none
  media_id : Option String := none
  post_id : Option String := none
  publish_id : Option String := none
  scheduled_id : Option String := none
  url : Option String := none
  message : Option String := none
  error : Option String := none
  status : Option String := none
  upload_id : Option String := none
  scheduled_time : Option Nat := none
  deriving Repr, DecidableEq

/-- Python `str.lower()` restricted to ASCII, as applied to file extensions
and platform names (every string the source lowercases is ASCII): each A-Z
code point is shifted to its a-z counterpart. -/
def py_lower (s : String) : String :=
  String.mk (s.data.map fun c =>
    if 65 ≤ c.toNat ∧ c.toNat ≤ 90 then Char.ofNat (c.toNat + 32) else c)

/-- `media_file_path.split('.')[-1].lower()`, computed identically in the
Instagram, Facebook and TikTok `upload_media` bodies (lines 171, 243, 318). -/
def file_extension (media_file_path : String) : String :=
  py_lower ((media_file_path.splitOn ".").getLastD "")

/-- `is_video = file_extension in ['mp4', 'mov', 'avi']` (lines 172, 244, 319). -/
def is_video_file (media_file_path : String) : Bool :=
  (["mp4", "mov", "avi"] : List String).contains (file_extension media_file_path)

namespace YouTubeService

def api_base : String := "https://www.googleapis.com/youtube/v3"

/-- The `video_metadata` dict built in `YouTubeService.upload_media`
(social_media_service.py lines 114-124), snippet and status flattened. -/
structure VideoMetadata where
  title : String
  description : String
  tags : List String
  categoryId : String
  privacyStatus : String
  deriving Repr, DecidableEq

def video_metadata (metadata : Metadata) : VideoMetadata :=
  { title := metadata.title.getD "Untitled Video"
    description := metadata.description.getD ""
    tags := metadata.hashtags.getD []
    categoryId := metadata.category.getD "22"
    privacyStatus := metadata.privacy.getD "private" }

/-- `YouTubeService.upload_media` (lines 107-136).  The try body only builds
dicts with defaulted `.get` reads, so the except branch is unreachable and the
mock success dict is returned unconditionally. -/
def upload_media (media_file_path : String) (metadata : Metadata)
    (access_token : String) : PublishResult :=
  { success := true
    platform := some "youtube"
    video_id := some "mock_youtube_video_id"
    url := some "https://youtube.com/watch?v=mock_video_id"
    message := some "Video uploaded successfully to YouTube" }

/-- `YouTubeService.schedule_media` (lines 138-148). -/
def schedule_media (media_file_path : String) (metadata : Metadata)
    (access_token : String) (scheduled_time : Nat) : PublishResult :=
  { success := true
    platform := some "youtube"
    scheduled_id := some "mock_youtube_scheduled_id"
    scheduled_time := some scheduled_time
    message := some "Video scheduled for YouTube upload" }

/-- `YouTubeService.get_status` (lines 150-157). -/
def get_status (upload_id : String) (access_token : String) : PublishResult :=
  { success := true
    platform := some "youtube"
    status := some "completed"
    upload_id := some upload_id }

end YouTubeService

namespace InstagramService

def api_base : String := "https://graph.instagram.com"

def api_version : String := "v23.0"

/-- The `container_data` dict built in `InstagramService.upload_media`
(lines 178-187): `video_url`/`image_url`/`media_type` keys are only present on
their branch, and `video_url`/`image_url` carry `metadata.get('media_url')`,
which may itself be absent — hence the nested `Option`. -/
structure ContainerData where
  access_token : String
  caption : String
  video_url : Option (Option String) := none
  media_type : Option String := none
  image_url : Option (Option String) := none
  deriving Repr, DecidableEq

def container_data (media_file_path : String) (metadata : Metadata)
    (access_token : String) : ContainerData :=
  let is_video := is_video_file media_file_path
  let base : ContainerData :=
    { access_token := access_token, caption := metadata.description.getD "" }
  if is_video then
    { base with video_url := some metadata.media_url, media_type := some "VIDEO" }
  else
    { base with image_url := some metadata.media_url }

/-- `InstagramService.upload_media` (lines 167-208): after building the
container (mocked), returns the mock publish response; the try body cannot
raise, so the except branch is unreachable. -/
def upload_media (media_file_path : String) (metadata : Metadata)
    (access_token : String) : PublishResult :=
  { success := true
    platform := some "instagram"
    media_id := some "mock_instagram_media_id"
    url := some "https://instagram.com/p/mock_media_id"
    message := some "Media uploaded successfully to Instagram" }

/-- `InstagramService.schedule_media` (lines 210-220). -/
def schedule_media (media_file_path : String) (metadata : Metadata)
    (access_token : String) (scheduled_time : Nat) : PublishResult :=
  { success := true
    platform := some "instagram"
    scheduled_id := some "mock_instagram_scheduled_id"
    scheduled_time := some scheduled_time
    message := some "Media scheduled for Instagram upload" }

/-- `InstagramService.get_status` (lines 222-229). -/
def get_status (upload_id : String) (access_token : String) : PublishResult :=
  { success := true
    platform := some "instagram"
    status := some "completed"
    upload_id := some upload_id }

end InstagramService

namespace FacebookService

def api_base : String := "https://graph.facebook.com"

def api_version : String := "v23.0"

/-- The endpoint/`post_data` pair built in `FacebookService.upload_media`
(lines 246-260): the video branch posts description+token to `/videos`, the
photo branch posts url+message+token to `/photos`. -/
inductive UploadRequest where
  | video (endpoint : String) (description : String) (access_token : String)
  | photo (endpoint : String) (url : Option String) (message : String)
      (access_token : String)
  deriving Repr, DecidableEq

def UploadRequest.is_video_branch : UploadRequest → Bool
  | .video .. => true
  | .photo .. => false

def upload_request (media_file_path : String) (metadata : Metadata)
    (access_token : String) : UploadRequest :=
  let page_id := metadata.page_id.getD "mock_page_id"
  let is_video := is_video_file media_file_path
  if is_video then
    .video (api_base ++ "/" ++ api_version ++ "/" ++ page_id ++ "/videos")
      (metadata.description.getD "") access_token
  else
    .photo (api_base ++ "/" ++ api_version ++ "/" ++ page_id ++ "/photos")
      metadata.media_url (metadata.description.getD "") access_token

/-- `FacebookService.upload_media` (lines 239-272): the mock success dict; its
`url` interpolates `page_id` from the metadata bag. -/
def upload_media (media_file_path : String) (metadata : Metadata)
    (access_token : String) : PublishResult :=
  let page_id := metadata.page_id.getD "mock_page_id"
  { success := true
    platform := some "facebook"
    post_id := some "mock_facebook_post_id"
    url := some ("https://facebook.com/" ++ page_id ++ "/posts/mock_post_id")
    message := some "Media uploaded successfully to Facebook" }

/-- The `post_data` dict built in `FacebookService.schedule_media`
(lines 280-285).  `int(scheduled_time.timestamp())` is the whole-second count,
i.e. floor division of the microsecond value by 1000000 (nonnegative, so
Python truncation and floor agree). -/
structure SchedulePostData where
  message : String
  published : String
  scheduled_publish_time : Nat
  access_token : String
  deriving Repr, DecidableEq

def schedule_post_data (metadata : Metadata) (access_token : String)
    (scheduled_time : Nat) : SchedulePostData :=
  { message := metadata.description.getD ""
    published := "false"
    scheduled_publish_time := scheduled_time / 1000000
    access_token := access_token }

/-- `FacebookService.schedule_media` (lines 274-296): builds the deferred
post_data (see `schedule_post_data`) and returns the mock success dict; the
try body cannot raise. -/
def schedule_media (media_file_path : String) (metadata : Metadata)
    (access_token : String) (scheduled_time : Nat) : PublishResult :=
  { success := true
    platform := some "facebook"
    scheduled_id := some "mock_facebook_scheduled_id"
    scheduled_time := some scheduled_time
    message := some "Media scheduled for Facebook upload" }

/-- `FacebookService.get_status` (lines 298-305). -/
def get_status (upload_id : String) (access_token : String) : PublishResult :=
  { success := true
    platform := some "facebook"
    status := some "completed"
    upload_id := some upload_id }

end FacebookService

namespace TikTokService

def api_base : String := "https://open.tiktokapis.com"

def api_version : String := "v2"

/-- `post_info` of the video branch of `TikTokService.upload_media`
(lines 326-333). -/
structure VideoPostInfo where
  title : String
  privacy_level : String
  disable_duet : Bool
  disable_comment : Bool
  disable_stitch : Bool
  video_cover_timestamp_ms : Nat
  deriving Repr, DecidableEq

/-- `source_info` of the video branch (lines 334-337). -/
structure VideoSourceInfo where
  source : String
  video_url : Option String
  deriving Repr, DecidableEq

/-- `post_info` of the photo branch (lines 344-350). -/
structure PhotoPostInfo where
  title : String
  description : String
  privacy_level : String
  disable_comment : Bool
  auto_add_music : Bool
  deriving Repr, DecidableEq

/-- `source_info` of the photo branch (lines 351-355). -/
structure PhotoSourceInfo where
  source : String
  photo_cover_index : Nat
  photo_images : List (Option String)
  deriving Repr, DecidableEq

/-- The `post_data` dict of `TikTokService.upload_media`, whose shape differs
between the two branches (lines 325-358). -/
inductive PostData where
  | video (post_info : VideoPostInfo) (source_info : VideoSourceInfo)
  | photo (post_info : PhotoPostInfo) (source_info : PhotoSourceInfo)
      (post_mode : String) (media_type : String)
  deriving Repr, DecidableEq

def PostData.is_video_branch : PostData → Bool
  | .video .. => true
  | .photo .. => false

/-- The endpoint/`post_data` pair built in `TikTokService.upload_media`
(lines 318-358). -/
def upload_request (media_file_path : String) (metadata : Metadata) :
    String × PostData :=
  let is_video := is_video_file media_file_path
  if is_video then
    (api_base ++ "/" ++ api_version ++ "/post/publish/video/init/",
      .video
        { title := metadata.title.getD ""
          privacy_level := metadata.privacy.getD "PUBLIC_TO_EVERYONE"
          disable_duet := metadata.disable_duet.getD false
          disable_comment := metadata.disable_comment.getD false
          disable_stitch := metadata.disable_stitch.getD false
          video_cover_timestamp_ms := metadata.cover_timestamp.getD 1000 }
        { source := "PULL_FROM_URL", video_url := metadata.media_url })
  else
    (api_base ++ "/" ++ api_version ++ "/post/publish/content/init/",
      .photo
        { title := metadata.title.getD ""
          description := metadata.description.getD ""
          privacy_level := metadata.privacy.getD "PUBLIC_TO_EVERYONE"
          disable_comment := metadata.disable_comment.getD false
          auto_add_music := metadata.auto_add_music.getD true }
        { source := "PULL_FROM_URL", photo_cover_index := 1
          photo_images := [metadata.media_url] }
        "DIRECT_POST" "PHOTO")

/-- `TikTokService.upload_media` (lines 315-370): builds the request (see
`upload_request`) and returns the mock success dict; the try body cannot
raise. -/
def upload_media (media_file_path : String) (metadata : Metadata)
    (access_token : String) : PublishResult :=
  { success := true
    platform := some "tiktok"
    publish_id := some "mock_tiktok_publish_id"
    url := some "https://tiktok.com/@user/video/mock_video_id"
    message := some "Media uploaded successfully to TikTok" }

/-- `TikTokService.schedule_media` (lines 372-382). -/
def schedule_media (media_file_path : String) (metadata : Metadata)
    (access_token : String) (scheduled_time : Nat) : PublishResult :=
  { success := true
    platform := some "tiktok"
    scheduled_id := some "mock_tiktok_scheduled_id"
    scheduled_time := some scheduled_time
    message := some "Media scheduled for TikTok upload" }

/-- `TikTokService.get_status` (lines 384-391). -/
def get_status (upload_id : String) (access_token : String) : PublishResult :=
  { success := true
    platform := some "tiktok"
    status := some "completed"
    upload_id := some upload_id }

end TikTokService

/-- The three operations every platform service object exposes; used to model
the `self.platforms` dict of service instances. -/
structure ServiceOps where
  upload_media : String → Metadata → String → PublishResult
  schedule_media : String → Metadata → String → Nat → PublishResult
  get_status : String → String → PublishResult

namespace SocialMediaService

/-- `self.platforms` built in `SocialMediaService.__init__`
(social_media_service.py lines 18-24), as an association list. -/
def platforms : List (String × ServiceOps) :=
  [("youtube",
      ⟨YouTubeService.upload_media, YouTubeService.schedule_media,
        YouTubeService.get_status⟩),
   ("instagram",
      ⟨InstagramService.upload_media, InstagramService.schedule_media,
        InstagramService.get_status⟩),
   ("facebook",
      ⟨FacebookService.upload_media, FacebookService.schedule_media,
        FacebookService.get_status⟩),
   ("tiktok",
      ⟨TikTokService.upload_media, TikTokService.schedule_media,
        TikTokService.get_status⟩)]

/-- `SocialMediaService.upload_to_platform` (lines 26-48): membership test and
dict indexing fused into one lookup; the adapters are total, so the defensive
except branch is unreachable. -/
def upload_to_platform (platform : String) (media_file_path : String)
    (metadata : Metadata) (access_token : String) : PublishResult :=
  match platforms.lookup platform with
  | none => { success := false, error := some ("Unsupported platform: " ++ platform) }
  | some service => service.upload_media media_file_path metadata access_token

/-- `SocialMediaService.schedule_upload` (lines 50-74). -/
def schedule_upload (platform : String) (media_file_path : String)
    (metadata : Metadata) (access_token : String) (scheduled_time : Nat) :
    PublishResult :=
  match platforms.lookup platform with
  | none => { success := false, error := some ("Unsupported platform: " ++ platform) }
  | some service =>
      service.schedule_media media_file_path metadata access_token scheduled_time

/-- `SocialMediaService.get_upload_status` (lines 76-97). -/
def get_upload_status (platform : String) (upload_id : String)
    (access_token : String) : PublishResult :=
  match platforms.lookup platform with
  | none => { success := false, error := some ("Unsupported platform: " ++ platform) }
  | some service => service.get_status upload_id access_token

end SocialMediaService

/-- Python `x or y` over optional strings: `None` and `''` are falsy and fall
through to the right operand. -/
def py_or (a b : Option String) : Option String :=
  match a with
  | some s => if s = "" then b else some s
  | none => b

/-- The `SocialMediaPost` model (src/models/media.py lines 34-48): nullable
columns are `Option`, datetimes are microsecond counts, `hashtags` is the
stored JSON text. -/
structure SocialMediaPost where
  id : Nat
  user_id : Nat
  media_file_id : Nat
  platform : String
  title : Option String := none
  description : Option String := none
  hashtags : Option String := none
  scheduled_time : Nat
  status : String := "scheduled"
  post_id : Option String := none
  posted_at : Option Nat := none
  error_message : Option String := none
  created_at : Nat
  updated_at : Nat
  deriving Repr, DecidableEq

/-- The record constructed by the `upload-to-platform` route
(src/routes/media.py lines 273-284): exactly the constructor keywords it
passes.  `hashtags` is kept as the list whose JSON dump is stored. -/
structure CreatedPost where
  user_id : Nat
  media_file_id : Nat
  platform : String
  title : String
  description : String
  hashtags : List String
  status : String
  platform_post_id : Option String := none
  platform_url : String := ""
  published_at : Option Nat := none
  scheduled_time : Option Nat := none
  deriving Repr, DecidableEq

namespace MediaRoutes

/-- `result.get('post_id') or result.get('video_id') or result.get('media_id')`
(media.py line 281). -/
def route_platform_post_id (result : PublishResult) : Option String :=
  py_or result.post_id (py_or result.video_id result.media_id)

/-- The `upload_to_platform` route handler (media.py lines 247-298) after
request validation: dispatches, and on `result['success']` persists a new
`published` record built from the result; otherwise returns the failure result
and creates no record.  `now` models `datetime.utcnow()`. -/
def upload_to_platform_route (user_id media_file_id : Nat)
    (media_file_path platform : String) (metadata : Metadata)
    (access_token : String) (now : Nat) : PublishResult × Option CreatedPost :=
  let result :=
    SocialMediaService.upload_to_platform platform media_file_path metadata
      access_token
  if result.success then
    (result,
      some
        { user_id := user_id
          media_file_id := media_file_id
          platform := platform
          title := metadata.title.getD ""
          description := metadata.description.getD ""
          hashtags := metadata.hashtags.getD []
          status := "published"
          platform_post_id := route_platform_post_id result
          platform_url := result.url.getD ""
          published_at := some now })
  else
    (result, none)

/-- The `schedule_platform_upload` route handler (media.py lines 300-355)
after request validation: dispatches the schedule call, and on success
persists a new `scheduled` record. -/
def schedule_platform_upload_route (user_id media_file_id : Nat)
    (media_file_path platform : String) (metadata : Metadata)
    (access_token : String) (scheduled_time : Nat) :
    PublishResult × Option CreatedPost :=
  let result :=
    SocialMediaService.schedule_upload platform media_file_path metadata
      access_token scheduled_time
  if result.success then
    (result,
      some
        { user_id := user_id
          media_file_id := media_file_id
          platform := platform
          title := metadata.title.getD ""
          description := metadata.description.getD ""
          hashtags := metadata.hashtags.getD []
          status := "scheduled"
          scheduled_time := some scheduled_time
          platform_post_id := result.scheduled_id })
  else
    (result, none)

/-- The `cancel_post` route handler (media.py lines 223-234): rejects unless
the record's status is `scheduled`, otherwise sets it to `cancelled`; the
commit fires the model's `onupdate=datetime.utcnow` on `updated_at`, modelled
by the `now` argument. -/
def cancel_post (now : Nat) (post : SocialMediaPost) :
    Except String SocialMediaPost :=
  if post.status ≠ "scheduled" then
    .error "Can only cancel scheduled posts"
  else
    .ok { post with status := "cancelled", updated_at := now }

end MediaRoutes

/-- One entry of the optimal-times table
(social_media_service.py lines 410-431). -/
structure OptimalSlot where
  day : String
  time : String
  engagement : String
  deriving Repr, DecidableEq

namespace ViralTimeService

/-- Microseconds in one hour of a Python naive datetime. -/
def us_per_hour : Nat := 3600000000

/-- Microseconds in one day of a Python naive datetime. -/
def us_per_day : Nat := 86400000000

/-- The `optimal_times` dict of `ViralTimeService.get_optimal_times`
(lines 410-431). -/
def optimal_times_table : List (String × List OptimalSlot) :=
  [("youtube",
     [⟨"weekdays", "14:00-16:00", "high"⟩,
      ⟨"weekdays", "20:00-22:00", "high"⟩,
      ⟨"weekend", "09:00-11:00", "medium"⟩]),
   ("instagram",
     [⟨"weekdays", "11:00-13:00", "high"⟩,
      ⟨"weekdays", "19:00-21:00", "high"⟩,
      ⟨"weekend", "10:00-12:00", "medium"⟩]),
   ("facebook",
     [⟨"weekdays", "13:00-15:00", "high"⟩,
      ⟨"weekdays", "19:00-21:00", "high"⟩,
      ⟨"weekend", "12:00-14:00", "medium"⟩]),
   ("tiktok",
     [⟨"weekdays", "06:00-10:00", "high"⟩,
      ⟨"weekdays", "19:00-21:00", "high"⟩,
      ⟨"weekend", "07:00-09:00", "medium"⟩])]

/-- `ViralTimeService.get_optimal_times` (lines 397-433):
`optimal_times.get(platform, [])`; the timezone argument is unused by the
source body. -/
def get_optimal_times (platform : String) (timezone : String) :
    List OptimalSlot :=
  (optimal_times_table.lookup platform).getD []

/-- `ViralTimeService.suggest_next_optimal_time` (lines 435-468).  The source
reads `now = datetime.now()`; the current time is passed explicitly here.
`suggested_time.hour` is `t % us_per_day / us_per_hour`; the
`replace(hour=11, minute=0, second=0, microsecond=0)` is the snap to 11:00:00
of the same day. -/
def suggest_next_optimal_time (platform : String) (timezone : String)
    (now : Nat) : Nat :=
  let optimal_times := get_optimal_times platform timezone
  if optimal_times.isEmpty then
    now + 2 * us_per_hour
  else
    let suggested_time := now + 2 * us_per_hour
    let hour := suggested_time % us_per_day / us_per_hour
    if hour < 11 ∨ 21 < hour then
      let snapped := suggested_time / us_per_day * us_per_day + 11 * us_per_hour
      if snapped ≤ now then snapped + us_per_day else snapped
    else
      suggested_time

/-- The spec's own wording of `nextOptimalTime` (spec §4.3), for comparison
with the source-derived `suggest_next_optimal_time`: default candidate is
`now + 2 hours`; if the platform has no table entries return it
unconditionally; if the candidate's clock hour lies in [11, 21] return it;
otherwise snap to 11:00:00 of the candidate's day, advancing one day when the
snapped time is not strictly after `now`. -/
def next_optimal_time_spec (platform : String) (timezone : String)
    (now : Nat) : Nat :=
  let candidate := now + 2 * us_per_hour
  if get_optimal_times platform timezone = [] then
    candidate
  else
    let hour := candidate % us_per_day / us_per_hour
    if 11 ≤ hour ∧ hour ≤ 21 then
      candidate
    else
      let snapped := candidate / us_per_day * us_per_day + 11 * us_per_hour
      if now < snapped then snapped else snapped + us_per_day

end ViralTimeService

namespace AIService

/-- The content dict produced by `generate_social_media_content`
(src/services/ai_service.py): caption, hashtag list, suggested time. -/
structure ContentData where
  caption : String
  hashtags : List String
  suggested_time : String
  deriving Repr, DecidableEq

/-- The response handling of `AIService.generate_social_media_content`
(ai_service.py lines 116-130): `json.loads` is abstracted as a caller-supplied
parser returning `none` on `JSONDecodeError`; on parse failure the fallback
dict truncates the response to 500 characters and uses the fixed generic
hashtag set. -/
def content_from_ai_response (parse_json : String → Option ContentData)
    (ai_response : String) : ContentData :=
  match parse_json ai_response with
  | some content_data => content_data
  | none =>
      { caption := String.mk (ai_response.data.take 500)
        hashtags := ["#viral", "#trending", "#content"]
        suggested_time := "Peak hours: 7-9 PM" }

/-- A parser that fails on every input, standing for a response that is not
well-formed JSON. -/
def failing_parse_json : String → Option ContentData := fun _ => none

end AIService

/-- The success shape spec §8 claims for `dispatchUpload`: success, the
requested (lowercase) platform echoed, and a non-empty platform-issued id in
one of the four per-platform fields. -/
def upload_success_with_id (platform : String) (r : PublishResult) : Prop :=
  r.success = true ∧ r.platform = some platform ∧
    ∃ id, id ≠ "" ∧
      (r.video_id = some id ∨ r.media_id = some id ∨ r.post_id = some id ∨
        r.publish_id = some id)

/-- Sample scheduled record for instantiating the cancellation theorems. -/
def sample_scheduled_post : SocialMediaPost :=
  { id := 1, user_id := 1, media_file_id := 1, platform := "youtube",
    scheduled_time := 0, status := "scheduled", created_at := 0,
    updated_at := 0 }

/-- Sample already-published record, not cancellable. -/
def sample_published_post : SocialMediaPost :=
  { sample_scheduled_post with status := "published" }

/-- The record the upload route persists for a youtube dispatch at time 0. -/
def c4_upload_created_post : CreatedPost :=
  { user_id := 1, media_file_id := 2, platform := "youtube", title := "",
    description := "", hashtags := [], status := "published",
    platform_post_id := some "mock_youtube_video_id",
    platform_url := "https://youtube.com/watch?v=mock_video_id",
    published_at := some 0 }

/-- Sample scheduled record with every nullable field populated, for
instantiating the cancellation frame theorem. -/
def c9_post_before : SocialMediaPost :=
  { id := 3, user_id := 4, media_file_id := 5, platform := "facebook",
    title := some "t", description := some "d", hashtags := some "[]",
    scheduled_time := 100, status := "scheduled", post_id := some "x",
    posted_at := some 60, error_message := some "e", created_at := 50,
    updated_at := 7 }

/-- `c9_post_before` after cancellation at time 9. -/
def c9_post_after : SocialMediaPost :=
  { c9_post_before with status := "cancelled", updated_at := 9 }

/-- C1 counterexample: the claim extends to upper/mixed-case spellings, but
`upload_to_platform` looks the platform name up without lowercasing, so the
mixed-case spelling "YouTube" — whose lowercase form is the supported
"youtube" — is rejected as unsupported instead of succeeding. -/
theorem c1_counterexample_mixed_case :
    py_lower "YouTube" ∈ (["youtube", "instagram", "facebook", "tiktok"] : List String) ∧
    (SocialMediaService.upload_to_platform "YouTube" "video.mp4" {} "token").success = false ∧
    (SocialMediaService.upload_to_platform "YouTube" "video.mp4" {} "token").error =
      some "Unsupported platform: YouTube" :=
  ⟨by decide, rfl, rfl⟩

/-- C1 (amended): for each of the four platform names written exactly in
lowercase, and for every media path, metadata bag and credential,
`upload_to_platform` returns success with the platform echoed and a non-empty
platform-issued id in one of the four per-platform fields. -/
theorem c1_lowercase_upload_success (media_file_path : String)
    (metadata : Metadata) (access_token : String) :
    upload_success_with_id "youtube"
      (SocialMediaService.upload_to_platform "youtube" media_file_path metadata access_token) ∧
    upload_success_with_id "instagram"
      (SocialMediaService.upload_to_platform "instagram" media_file_path metadata access_token) ∧
    upload_success_with_id "facebook"
      (SocialMediaService.upload_to_platform "facebook" media_file_path metadata access_token) ∧
    upload_success_with_id "tiktok"
      (SocialMediaService.upload_to_platform "tiktok" media_file_path metadata access_token) :=
  ⟨⟨rfl, rfl, "mock_youtube_video_id", by decide, Or.inl rfl⟩,
   ⟨rfl, rfl, "mock_instagram_media_id", by decide, Or.inr (Or.inl rfl)⟩,
   ⟨rfl, rfl, "mock_facebook_post_id", by decide, Or.inr (Or.inr (Or.inl rfl))⟩,
   ⟨rfl, rfl, "mock_tiktok_publish_id", by decide, Or.inr (Or.inr (Or.inr rfl))⟩⟩

/-- C2: the TikTok adapter reports its platform-issued identifier in
`publish_id`, but the upload route's normalization
`result.get('post_id') or result.get('video_id') or result.get('media_id')`
omits `publish_id`, so a successful TikTok upload persists a record with an
empty `platform_post_id`. -/
theorem c2_tiktok_publish_id_dropped :
    (SocialMediaService.upload_to_platform "tiktok" "video.mp4" {} "token").success = true ∧
    (SocialMediaService.upload_to_platform "tiktok" "video.mp4" {} "token").publish_id =
      some "mock_tiktok_publish_id" ∧
    MediaRoutes.route_platform_post_id
      (SocialMediaService.upload_to_platform "tiktok" "video.mp4" {} "token") = none ∧
    (MediaRoutes.upload_to_platform_route 1 1 "video.mp4" "tiktok" {} "token" 0).2 =
      some
        { user_id := 1, media_file_id := 1, platform := "tiktok", title := "",
          description := "", hashtags := [], status := "published",
          platform_post_id := none,
          platform_url := "https://tiktok.com/@user/video/mock_video_id",
          published_at := some 0 } :=
  ⟨rfl, rfl, rfl, rfl⟩

/-- C3: every platform string outside the supported set is absent from the
adapter mapping (so no adapter is invoked), is answered with exactly the
unsupported-platform failure dict, and the upload route creates no record
for it. -/
theorem c3_unsupported_platform (platform : String)
    (h : platform ∉ (["youtube", "instagram", "facebook", "tiktok"] : List String))
    (user_id media_file_id now : Nat) (media_file_path : String)
    (metadata : Metadata) (access_token : String) :
    SocialMediaService.platforms.lookup platform = none ∧
    SocialMediaService.upload_to_platform platform media_file_path metadata
        access_token =
      { success := false,
        error := some ("Unsupported platform: " ++ platform) } ∧
    (MediaRoutes.upload_to_platform_route user_id media_file_id media_file_path
        platform metadata access_token now).2 = none := by
  simp only [List.mem_cons, List.not_mem_nil, or_false, not_or] at h
  obtain ⟨h1, h2, h3, h4⟩ := h
  have e1 : (platform == "youtube") = false := beq_eq_false_iff_ne.mpr h1
  have e2 : (platform == "instagram") = false := beq_eq_false_iff_ne.mpr h2
  have e3 : (platform == "facebook") = false := beq_eq_false_iff_ne.mpr h3
  have e4 : (platform == "tiktok") = false := beq_eq_false_iff_ne.mpr h4
  have hl : SocialMediaService.platforms.lookup platform = none := by
    simp [SocialMediaService.platforms, List.lookup, e1, e2, e3, e4]
  have hu : SocialMediaService.upload_to_platform platform media_file_path
      metadata access_token =
      { success := false,
        error := some ("Unsupported platform: " ++ platform) } := by
    unfold SocialMediaService.upload_to_platform
    rw [hl]
  refine ⟨hl, hu, ?_⟩
  unfold MediaRoutes.upload_to_platform_route
  rw [hu]
  simp

/-- Witness for C3 at the spec's own example of an unsupported platform. -/
theorem c3_unsupported_platform_witness :
    SocialMediaService.platforms.lookup "myspace" = none ∧
    SocialMediaService.upload_to_platform "myspace" "video.mp4" {} "token" =
      { success := false, error := some "Unsupported platform: myspace" } ∧
    (MediaRoutes.upload_to_platform_route 1 1 "video.mp4" "myspace" {} "token"
        0).2 = none :=
  c3_unsupported_platform "myspace" (by decide) 1 1 0 "video.mp4" {} "token"

/-- C4: a record created by the upload route holds status `published` only
when the dispatched adapter call succeeded, and cancellation succeeds only
from status `scheduled` (any other status is rejected). -/
theorem c4_status_invariant :
    (∀ (user_id media_file_id now : Nat) (media_file_path platform : String)
        (metadata : Metadata) (access_token : String) (post : CreatedPost),
        (MediaRoutes.upload_to_platform_route user_id media_file_id
            media_file_path platform metadata access_token now).2 = some post →
        post.status = "published" ∧
        (MediaRoutes.upload_to_platform_route user_id media_file_id
            media_file_path platform metadata access_token now).1.success = true) ∧
    (∀ (now : Nat) (p p' : SocialMediaPost),
        MediaRoutes.cancel_post now p = .ok p' →
        p.status = "scheduled" ∧ p'.status = "cancelled") ∧
    (∀ (now : Nat) (p : SocialMediaPost),
        p.status ≠ "scheduled" →
        MediaRoutes.cancel_post now p = .error "Can only cancel scheduled posts") := by
  refine ⟨?_, ?_, ?_⟩
  · intro user_id media_file_id now media_file_path platform metadata
      access_token post h
    unfold MediaRoutes.upload_to_platform_route at h ⊢
    by_cases hs :
        (SocialMediaService.upload_to_platform platform media_file_path
          metadata access_token).success = true
    · simp only [hs, if_true] at h
      simp at h
      exact ⟨by rw [← h], by simp [hs]⟩
    · simp [hs] at h
  · intro now p p' h
    unfold MediaRoutes.cancel_post at h
    by_cases hs : p.status = "scheduled"
    · simp only [hs, ne_eq, not_true_eq_false, if_false, Except.ok.injEq] at h
      exact ⟨hs, by rw [← h]⟩
    · simp [hs] at h
  · intro now p h
    unfold MediaRoutes.cancel_post
    simp [h]

/-- Witness for C4 at concrete inputs. -/
theorem c4_status_invariant_witness :
    (c4_upload_created_post.status = "published" ∧
      (MediaRoutes.upload_to_platform_route 1 2 "video.mp4" "youtube" {}
          "token" 0).1.success = true) ∧
    (sample_scheduled_post.status = "scheduled" ∧
      ({ sample_scheduled_post with
          status := "cancelled",
          updated_at := 5 } : SocialMediaPost).status = "cancelled") ∧
    MediaRoutes.cancel_post 5 sample_published_post =
      .error "Can only cancel scheduled posts" :=
  ⟨c4_status_invariant.1 1 2 0 "video.mp4" "youtube" {} "token"
      c4_upload_created_post rfl,
   c4_status_invariant.2.1 5 sample_scheduled_post
      { sample_scheduled_post with
          status := "cancelled", updated_at := 5 } rfl,
   c4_status_invariant.2.2 5 sample_published_post (by decide)⟩

/-- C5: the source's `suggest_next_optimal_time` computes exactly the value
the spec describes — `now + 2h` when the platform has no table entries,
otherwise `now + 2h` if that candidate's hour lies in [11, 21], else the
candidate snapped to 11:00:00 of its day, advanced by one day when the
snapped time is not strictly after `now`. -/
theorem c5_next_optimal_time_matches_spec (platform timezone : String)
    (now : Nat) :
    ViralTimeService.suggest_next_optimal_time platform timezone now =
      ViralTimeService.next_optimal_time_spec platform timezone now := by
  unfold ViralTimeService.suggest_next_optimal_time
    ViralTimeService.next_optimal_time_spec
  cases h : ViralTimeService.get_optimal_times platform timezone with
  | nil => simp
  | cons a l =>
      simp only [h, List.isEmpty_cons, Bool.false_eq_true, if_false,
        reduceCtorEq]
      simp only [ViralTimeService.us_per_hour, ViralTimeService.us_per_day]
      split_ifs <;> omega

/-- C10: whatever the platform (known or unknown) and current time, the
suggested next optimal time is strictly in the future. -/
theorem c10_next_time_strictly_future (platform timezone : String)
    (now : Nat) :
    now < ViralTimeService.suggest_next_optimal_time platform timezone now := by
  unfold ViralTimeService.suggest_next_optimal_time
  cases h : ViralTimeService.get_optimal_times platform timezone with
  | nil =>
      simp only [h, List.isEmpty_nil, if_true]
      simp only [ViralTimeService.us_per_hour]
      omega
  | cons a l =>
      simp only [h, List.isEmpty_cons, Bool.false_eq_true, if_false,
        reduceCtorEq]
      simp only [ViralTimeService.us_per_hour, ViralTimeService.us_per_day]
      split_ifs <;> omega

/-- C6: scheduling on the three platforms without native support succeeds
with a locally-generated scheduling token and no error, and the Facebook
scheduling payload carries the scheduled time as the whole-second Unix
timestamp `int(scheduled_time.timestamp())`. -/
theorem c6_schedule_results (media_file_path : String) (metadata : Metadata)
    (access_token : String) (scheduled_time : Nat) :
    ((SocialMediaService.schedule_upload "youtube" media_file_path metadata
        access_token scheduled_time).success = true ∧
      (SocialMediaService.schedule_upload "youtube" media_file_path metadata
        access_token scheduled_time).scheduled_id =
          some "mock_youtube_scheduled_id" ∧
      (SocialMediaService.schedule_upload "youtube" media_file_path metadata
        access_token scheduled_time).error = none) ∧
    ((SocialMediaService.schedule_upload "instagram" media_file_path metadata
        access_token scheduled_time).success = true ∧
      (SocialMediaService.schedule_upload "instagram" media_file_path metadata
        access_token scheduled_time).scheduled_id =
          some "mock_instagram_scheduled_id" ∧
      (SocialMediaService.schedule_upload "instagram" media_file_path metadata
        access_token scheduled_time).error = none) ∧
    ((SocialMediaService.schedule_upload "tiktok" media_file_path metadata
        access_token scheduled_time).success = true ∧
      (SocialMediaService.schedule_upload "tiktok" media_file_path metadata
        access_token scheduled_time).scheduled_id =
          some "mock_tiktok_scheduled_id" ∧
      (SocialMediaService.schedule_upload "tiktok" media_file_path metadata
        access_token scheduled_time).error = none) ∧
    (FacebookService.schedule_post_data metadata access_token
        scheduled_time).scheduled_publish_time = scheduled_time / 1000000 :=
  ⟨⟨rfl, rfl, rfl⟩, ⟨rfl, rfl, rfl⟩, ⟨rfl, rfl, rfl⟩, rfl⟩

/-- C7: every adapter classifies the asset by the lowercased component after
the last dot — mp4/mov/avi means the video branch, anything else (including a
path with no dot) the image/photo branch — and the Instagram container,
Facebook request and TikTok request all follow that classification. -/
theorem c7_extension_classification (media_file_path : String)
    (metadata : Metadata) (access_token : String) :
    (is_video_file media_file_path = true ↔
      py_lower ((media_file_path.splitOn ".").getLastD "") ∈
        (["mp4", "mov", "avi"] : List String)) ∧
    ((InstagramService.container_data media_file_path metadata
        access_token).media_type =
      if is_video_file media_file_path then some "VIDEO" else none) ∧
    ((InstagramService.container_data media_file_path metadata
        access_token).video_url =
      if is_video_file media_file_path then some metadata.media_url else none) ∧
    ((InstagramService.container_data media_file_path metadata
        access_token).image_url =
      if is_video_file media_file_path then none else some metadata.media_url) ∧
    ((FacebookService.upload_request media_file_path metadata
        access_token).is_video_branch = is_video_file media_file_path) ∧
    ((TikTokService.upload_request media_file_path metadata).2.is_video_branch =
      is_video_file media_file_path) ∧
    ((TikTokService.upload_request media_file_path metadata).1 =
      if is_video_file media_file_path then
        "https://open.tiktokapis.com/v2/post/publish/video/init/"
      else
        "https://open.tiktokapis.com/v2/post/publish/content/init/") := by
  refine ⟨?_, ?_, ?_, ?_, ?_, ?_, ?_⟩
  · rw [is_video_file, file_extension]
    exact List.elem_iff
  all_goals
    by_cases h : is_video_file media_file_path <;>
      simp [h, InstagramService.container_data, FacebookService.upload_request,
        FacebookService.UploadRequest.is_video_branch,
        TikTokService.upload_request, TikTokService.PostData.is_video_branch,
        TikTokService.api_base, TikTokService.api_version]

/-- C8: when the text-generation response fails to parse as structured data,
content generation still returns a result: the response truncated to its
first 500 characters as the caption, together with the fixed generic hashtag
set. -/
theorem c8_parse_failure_fallback
    (parse_json : String → Option AIService.ContentData)
    (ai_response : String) (h : parse_json ai_response = none) :
    AIService.content_from_ai_response parse_json ai_response =
      { caption := String.mk (ai_response.data.take 500)
        hashtags := ["#viral", "#trending", "#content"]
        suggested_time := "Peak hours: 7-9 PM" } := by
  unfold AIService.content_from_ai_response
  rw [h]

/-- Witness for C8 on a concrete non-JSON response. -/
theorem c8_parse_failure_fallback_witness :
    AIService.failing_parse_json "this is not structured data" = none ∧
    AIService.content_from_ai_response AIService.failing_parse_json
        "this is not structured data" =
      { caption := "this is not structured data"
        hashtags := ["#viral", "#trending", "#content"]
        suggested_time := "Peak hours: 7-9 PM" } :=
  ⟨rfl,
   c8_parse_failure_fallback AIService.failing_parse_json
     "this is not structured data" rfl⟩

/-- C9: cancelling a scheduled post changes only the status (to `cancelled`)
and the auto-maintained `updated_at`; every other field of the record is
unchanged. -/
theorem c9_cancel_frame (now : Nat) (p p' : SocialMediaPost)
    (h : MediaRoutes.cancel_post now p = .ok p') :
    p'.status = "cancelled" ∧ p'.updated_at = now ∧
    p'.id = p.id ∧ p'.user_id = p.user_id ∧
    p'.media_file_id = p.media_file_id ∧ p'.platform = p.platform ∧
    p'.title = p.title ∧ p'.description = p.description ∧
    p'.hashtags = p.hashtags ∧ p'.scheduled_time = p.scheduled_time ∧
    p'.post_id = p.post_id ∧ p'.posted_at = p.posted_at ∧
    p'.error_message = p.error_message ∧ p'.created_at = p.created_at := by
  unfold MediaRoutes.cancel_post at h
  by_cases hs : p.status = "scheduled"
  · simp only [hs, ne_eq, not_true_eq_false, if_false, Except.ok.injEq] at h
    subst h
    exact ⟨rfl, rfl, rfl, rfl, rfl, rfl, rfl, rfl, rfl, rfl, rfl, rfl, rfl,
      rfl⟩
  · simp [hs] at h

/-- Witness for C9 at a concrete fully-populated scheduled record. -/
theorem c9_cancel_frame_witness :
    c9_post_after.status = "cancelled" ∧ c9_post_after.updated_at = 9 ∧
    c9_post_after.id = c9_post_before.id ∧
    c9_post_after.user_id = c9_post_before.user_id ∧
    c9_post_after.media_file_id = c9_post_before.media_file_id ∧
    c9_post_after.platform = c9_post_before.platform ∧
    c9_post_after.title = c9_post_before.title ∧
    c9_post_after.description = c9_post_before.description ∧
    c9_post_after.hashtags = c9_post_before.hashtags ∧
    c9_post_after.scheduled_time = c9_post_before.scheduled_time ∧
    c9_post_after.post_id = c9_post_before.post_id ∧
    c9_post_after.posted_at = c9_post_before.posted_at ∧
    c9_post_after.error_message = c9_post_before.error_message ∧
    c9_post_after.created_at = c9_post_before.created_at :=
  c9_cancel_frame 9 c9_post_before c9_post_after rfl
